import Mathlib

/-!
Verification of the Media-Tui dashboard (src/main.py, src/local_media.py,
src/local_music.py, src/radio_player.py, src/spotify_player.py).

The Python classes are shallowly embedded as Lean structures; each method
becomes a pure function threading an explicit environment.  External
collaborators that the specification places out of scope (directory
listing, metadata extraction libraries, HTTP calls, the terminal toolkit)
are modelled as oracle fields of the environment or elided when they do
not touch the state under study.  Subprocess management (`subprocess.Popen`,
`poll`, `terminate`, `wait`) is modelled by a small operating-system state
holding a process table and the set of existing IPC socket paths.
-/

namespace MediaTui

/-! ## Operating-system model: processes and IPC socket paths

`ProcStatus.running` corresponds to `Popen.poll() is None`.  `terminate`
(SIGTERM) is modelled as an immediate exit with the conventional negative
return code `-15`; a process that has exited but has not been waited on is
recorded with `reaped := false` (a zombie).  `Popen.poll` reaps an exited
child (it calls `waitpid(WNOHANG)`), `Popen.wait` blocks and reaps. -/

inductive ProcStatus where
  | running : ProcStatus
  | exited : Int → ProcStatus
deriving DecidableEq, Repr, Inhabited

structure ProcInfo where
  status : ProcStatus
  reaped : Bool
deriving DecidableEq, Repr, Inhabited

structure OS where
  procs : List (Nat × ProcInfo)
  nextPid : Nat
  sockets : List String
deriving DecidableEq, Repr, Inhabited

def OS.find (os : OS) (pid : Nat) : Option ProcInfo :=
  (os.procs.find? (fun p => p.1 == pid)).map (fun p => p.2)

def OS.setProc (os : OS) (pid : Nat) (f : ProcInfo → ProcInfo) : OS :=
  { os with procs := os.procs.map (fun p => if p.1 == pid then (p.1, f p.2) else p) }

/-- `subprocess.Popen(...)`: a fresh running child process. -/
def OS.spawn (os : OS) : OS × Nat :=
  ({ os with procs := os.procs ++ [(os.nextPid, ⟨ProcStatus.running, false⟩)],
             nextPid := os.nextPid + 1 }, os.nextPid)

/-- mpv spawned with `--input-ipc-server=sock`: the child creates the socket
endpoint shortly after launch; modelled as present from spawn time. -/
def OS.spawnIpc (os : OS) (sock : String) : OS × Nat :=
  let (os1, pid) := os.spawn
  ({ os1 with sockets := os1.sockets ++ [sock] }, pid)

/-- `Popen.poll()`: `none` while the child runs; reaps and returns the exit
code once it has exited. -/
def OS.poll (os : OS) (pid : Nat) : OS × Option Int :=
  match os.find pid with
  | some info =>
    match info.status with
    | ProcStatus.running => (os, none)
    | ProcStatus.exited c => (os.setProc pid (fun i => { i with reaped := true }), some c)
  | none => (os, none)

/-- `Popen.terminate()`: SIGTERM, modelled as immediate exit with code -15;
a no-op on a child that has already exited. -/
def OS.terminate (os : OS) (pid : Nat) : OS :=
  os.setProc pid (fun i =>
    if i.status == ProcStatus.running then { i with status := ProcStatus.exited (-15) } else i)

/-- `Popen.wait()`: blocks until exit (a still-running child is modelled as
finishing naturally with code 0) and reaps. -/
def OS.wait (os : OS) (pid : Nat) : OS × Int :=
  match os.find pid with
  | some info =>
    match info.status with
    | ProcStatus.running =>
      (os.setProc pid (fun i => { i with status := ProcStatus.exited 0, reaped := true }), 0)
    | ProcStatus.exited c =>
      (os.setProc pid (fun i => { i with reaped := true }), c)
  | none => (os, 0)

def OS.isRunning (os : OS) (pid : Nat) : Bool :=
  match os.find pid with
  | some info => info.status == ProcStatus.running
  | none => false

def OS.isReaped (os : OS) (pid : Nat) : Bool :=
  match os.find pid with
  | some info => info.reaped
  | none => false

def OS.socketExists (os : OS) (sock : String) : Bool :=
  os.sockets.contains sock

def OS.removeSocket (os : OS) (sock : String) : OS :=
  { os with sockets := os.sockets.filter (fun s => s != sock) }

/-- Number of live (still-running) child processes. -/
def OS.aliveCount (os : OS) : Nat :=
  (os.procs.filter (fun p => p.2.status == ProcStatus.running)).length

/-! ## Filesystem entries

Directory listing is an external collaborator (spec section 1); the raw
`Path.iterdir()` result is an oracle `Path -> List Entry` in the
environment, with the convention that a nonexistent directory maps to `[]`
(matching the `if not dir.exists(): return []` guards in the source).
Paths are component lists relative to the user's home directory. -/

abbrev FsPath := List String

structure Entry where
  path : FsPath
  name : String
  isDir : Bool
  isFile : Bool
  suffix : String
deriving DecidableEq, Repr, Inhabited

/-- `Path.stem`: the final component without its suffix. -/
def Entry.stem (e : Entry) : String := e.name.dropRight e.suffix.length

def pathStr (p : FsPath) : String := String.intercalate "/" p

def parentPath (p : FsPath) : FsPath := p.dropLast

def videosRoot : FsPath := ["Videos"]
def musicRoot : FsPath := ["Music"]

/-! ## Environment

Bundles the OS state with the external oracles and ambient run data:
the directory-listing collaborators, the persisted radio favorites file,
the wall clock (`time.time()` at the moment of the call, as an integer
tick count), the dashboard's own pid (`os.getpid()`), the screen size
(`stdscr.getmaxyx()`), and the station list a radio search would fetch. -/

structure Station where
  name : String
  url_resolved : String
deriving DecidableEq, Repr, Inhabited

structure Env where
  os : OS
  mediaIterdir : FsPath → List Entry
  musicIterdir : FsPath → List Entry
  favFile : Option (List Station)
  now : Int
  appPid : Nat
  scrH : Int
  scrW : Int
  radioSearch : List Station

/-! ## LocalMediaPlayer (src/local_media.py) -/

def mediaSuffixes : List String := [".mp4", ".mkv", ".avi", ".mov"]

/-- The `current_media_info` dict; `none` models the cleared `{}` state.
The pymediainfo track dictionaries are external metadata and elided. -/
structure MediaInfo where
  title : String
  file_path : String
deriving DecidableEq, Repr, Inhabited

structure LocalMediaPlayer where
  media_dir : FsPath
  selected_index : Nat
  file_list : List Entry
  player_process : Option Nat
  current_view : String
  current_media_info : Option MediaInfo
  playback_start_time : Option Int
  player_paused : Bool
  playlist : List Entry
  current_media_index : Option Nat
  ipc_socket : Option String
  monitoring_mpv : Bool
  mpv_thread_alive : Bool
deriving Repr, Inhabited

/-- `LocalMediaPlayer.get_media_directories` (listing filter applied to the
oracle's raw `iterdir`). -/
def lmedGetMediaDirectories (it : FsPath → List Entry) (dir : FsPath) : List Entry :=
  (it dir).filter (fun f => f.isDir && !(f.name.startsWith "."))

/-- `LocalMediaPlayer.get_directory_content`. -/
def lmedGetDirectoryContent (it : FsPath → List Entry) (dir : FsPath) : List Entry :=
  (it dir).filter (fun f =>
    (f.isDir || mediaSuffixes.contains f.suffix.toLower) && !(f.name.startsWith "."))

/-- `LocalMediaPlayer.play_media_file`: terminate a still-running player
(no `wait()` in this path), derive the IPC socket name from the dashboard
pid, spawn mpv with the IPC server flag, store metadata, record the start
timestamp, and start the event-monitor thread. -/
def lmedPlayMediaFile (env : Env) (s : LocalMediaPlayer) (fp : Entry) :
    Env × LocalMediaPlayer :=
  let os1 :=
    match s.player_process with
    | some pid =>
      let (o, r) := env.os.poll pid
      if r = none then o.terminate pid else o
    | none => env.os
  let sock := "/tmp/mpv_socket_" ++ toString env.appPid
  let (os2, pid') := os1.spawnIpc sock
  ({ env with os := os2 },
   { s with ipc_socket := some sock,
            player_process := some pid',
            current_media_info := some ⟨fp.stem, pathStr fp.path⟩,
            playback_start_time := some env.now,
            player_paused := false,
            monitoring_mpv := true,
            mpv_thread_alive := true })

/-- Ordered observable steps of `LocalMediaPlayer.stop_media`, used to
check the cancellation-ordering requirement. -/
inductive StopEvent where
  | termProc : StopEvent
  | waitProc : StopEvent
  | removeSocket : StopEvent
  | setCancelFlag : StopEvent
  | joinMonitor : StopEvent
deriving DecidableEq, BEq, Repr

/-- `LocalMediaPlayer.stop_media(clean_ipc)`: terminate and wait on a
running player, optionally delete the IPC socket path, clear playback
fields, lower the monitor flag, and join a live monitor thread — emitting
the events in the order the source performs them.  The method may execute
on the main loop thread (explicit stop, cleanup) or on the monitor thread
itself (via `handle_playback_end`); `onMonitorThread` records which.  The
final join guard fires whenever the monitor thread object is alive, and
joining it FROM the monitor thread raises
`RuntimeError("cannot join current thread")`, aborting the method after
the field clears with no join performed; the trailing Bool of the result
records that escaped exception. -/
def lmedStopMedia (env : Env) (s : LocalMediaPlayer) (clean_ipc : Bool)
    (onMonitorThread : Bool) : Env × LocalMediaPlayer × List StopEvent × Bool :=
  let (env1, s1, t1) :=
    match s.player_process with
    | some pid =>
      let (o, r) := env.os.poll pid
      if r = none then
        let o2 := o.terminate pid
        let (o3, _) := o2.wait pid
        ({ env with os := o3 }, { s with player_process := none },
         [StopEvent.termProc, StopEvent.waitProc])
      else ({ env with os := o }, s, [])
    | none => (env, s, [])
  let (env2, t2) :=
    if clean_ipc then
      match s1.ipc_socket with
      | some sock =>
        if env1.os.socketExists sock then
          ({ env1 with os := env1.os.removeSocket sock }, [StopEvent.removeSocket])
        else (env1, [])
      | none => (env1, [])
    else (env1, [])
  let s2 := { s1 with playback_start_time := none, player_paused := false,
                      current_media_info := none, monitoring_mpv := false }
  if s2.mpv_thread_alive then
    if onMonitorThread then
      (env2, s2, t1 ++ t2 ++ [StopEvent.setCancelFlag], true)
    else
      (env2, { s2 with mpv_thread_alive := false },
       t1 ++ t2 ++ [StopEvent.setCancelFlag, StopEvent.joinMonitor], false)
  else (env2, s2, t1 ++ t2 ++ [StopEvent.setCancelFlag], false)

/-- `LocalMediaPlayer.handle_playback_end`: stop the finished track's
process (reusing the IPC socket), then advance the playlist cursor and
start the next track, or land on the terminal "player" view.  Its only
call site is `monitor_mpv_events` (line 328), so it always executes on
the monitor thread itself: there `stop_media` raises on the self-join and
the advance/view code below the call is unreachable.  The trailing Bool
records the exception escaping the method (its caller logs it via the
`except Exception` handler and ends the monitor loop). -/
def lmedHandlePlaybackEnd (env : Env) (s : LocalMediaPlayer) :
    Env × LocalMediaPlayer × Bool :=
  let (env1, s1, _, raised) := lmedStopMedia env s false true
  if raised then (env1, s1, true)
  else
    match s1.current_media_index, s1.playlist.isEmpty with
    | some i, false =>
      if i + 1 < s1.playlist.length then
        let (env2, s2) := lmedPlayMediaFile env1
          { s1 with current_media_index := some (i + 1) } (s1.playlist.getD (i + 1) default)
        (env2, s2, false)
      else (env1, { s1 with current_view := "player" }, false)
    | _, _ => (env1, { s1 with current_view := "player" }, false)

/-- `LocalMediaPlayer.check_playback_status`: the render loop's periodic
liveness probe.  A completed child is reaped by `poll`; the monitor is
cancelled and joined; on nonzero exit the pane shows the "player" view. -/
def lmedCheckPlaybackStatus (env : Env) (s : LocalMediaPlayer) : Env × LocalMediaPlayer :=
  match s.player_process with
  | some pid =>
    let (os1, r) := env.os.poll pid
    match r with
    | some rc =>
      let s1 := { s with monitoring_mpv := false, mpv_thread_alive := false,
                         player_process := none, playback_start_time := none,
                         player_paused := false }
      if rc == 0 then ({ env with os := os1 }, s1)
      else ({ env with os := os1 }, { s1 with current_view := "player" })
    | none => ({ env with os := os1 }, s)
  | none => (env, s)

/-! ## LocalMusicPlayer (src/local_music.py) -/

def musicSuffixes : List String := [".mp3", ".flac", ".wav"]

/-- The `current_track_info` dict; `none` models the cleared `{}` state.
Album art and mutagen tag contents are external metadata and elided. -/
structure TrackInfo where
  title : String
  file_path : String
deriving DecidableEq, Repr, Inhabited

/-- One entry of `button_regions`: action name, `btn_y`, `btn_x`, width. -/
structure ButtonRegion where
  action : String
  btnY : Int
  btnX : Int
  btnW : Int
deriving DecidableEq, Repr, Inhabited

structure LocalMusicPlayer where
  music_dir : FsPath
  selected_index : Nat
  file_list : List Entry
  player_process : Option Nat
  current_view : String
  button_regions : List ButtonRegion
  player_paused : Bool
  current_track_info : Option TrackInfo
  playback_start_time : Option Int
  pause_time : Option Int
  playlist : List Entry
  current_track_index : Option Nat
deriving Repr, Inhabited

/-- `LocalMusicPlayer.get_music_directories`. -/
def lmusGetMusicDirectories (it : FsPath → List Entry) (dir : FsPath) : List Entry :=
  (it dir).filter (fun f => f.isDir && !(f.name.startsWith "."))

/-- `LocalMusicPlayer.get_directory_content` (note: suffix matched without
lower-casing, unlike the video pane). -/
def lmusGetDirectoryContent (it : FsPath → List Entry) (dir : FsPath) : List Entry :=
  (it dir).filter (fun f =>
    (f.isDir || musicSuffixes.contains f.suffix) && !(f.name.startsWith "."))

/-- `LocalMusicPlayer.play_music_file`: terminate a still-running player
(no `wait()` in this path), spawn mpv, store metadata, and record the
start timestamp. -/
def lmusPlayMusicFile (env : Env) (s : LocalMusicPlayer) (fp : Entry) :
    Env × LocalMusicPlayer :=
  let os1 :=
    match s.player_process with
    | some pid =>
      let (o, r) := env.os.poll pid
      if r = none then o.terminate pid else o
    | none => env.os
  let (os2, pid') := os1.spawn
  ({ env with os := os2 },
   { s with player_process := some pid',
            current_track_info := some ⟨fp.stem, pathStr fp.path⟩,
            playback_start_time := some env.now,
            player_paused := false })

/-- `LocalMusicPlayer.stop_music` (line 424): terminate without waiting. -/
def lmusStopMusic (env : Env) (s : LocalMusicPlayer) : Env × LocalMusicPlayer :=
  match s.player_process with
  | some pid =>
    let (o, r) := env.os.poll pid
    if r = none then ({ env with os := o.terminate pid }, { s with player_process := none })
    else ({ env with os := o }, s)
  | none => (env, s)

/-- `LocalMusicPlayer.stop_media` (line 79): terminate, wait, and clear the
playback fields.  Used by the dashboard's `cleanup`. -/
def lmusStopMedia (env : Env) (s : LocalMusicPlayer) : Env × LocalMusicPlayer :=
  let (env1, s1) :=
    match s.player_process with
    | some pid =>
      let (o, r) := env.os.poll pid
      if r = none then
        let o2 := o.terminate pid
        let (o3, _) := o2.wait pid
        ({ env with os := o3 }, { s with player_process := none })
      else ({ env with os := o }, s)
    | none => (env, s)
  (env1, { s1 with playback_start_time := none, player_paused := false,
                   current_track_index := none, current_track_info := none })

/-- `LocalMusicPlayer.next_track`: wraps modulo the playlist length. -/
def lmusNextTrack (env : Env) (s : LocalMusicPlayer) : Env × LocalMusicPlayer :=
  match s.current_track_index, s.playlist.isEmpty with
  | some i, false =>
    let i' := (i + 1) % s.playlist.length
    lmusPlayMusicFile env { s with current_track_index := some i' } (s.playlist.getD i' default)
  | _, _ => (env, s)

/-- `LocalMusicPlayer.previous_track`: Python's modulo keeps the wrapped
index nonnegative, so `(i - 1) % len` is taken over the integers. -/
def lmusPreviousTrack (env : Env) (s : LocalMusicPlayer) : Env × LocalMusicPlayer :=
  match s.current_track_index, s.playlist.isEmpty with
  | some i, false =>
    let i' := (((i : Int) - 1).emod (s.playlist.length : Int)).toNat
    lmusPlayMusicFile env { s with current_track_index := some i' } (s.playlist.getD i' default)
  | _, _ => (env, s)

/-- `LocalMusicPlayer.toggle_playback`: SIGSTOP records the pause
timestamp; SIGCONT shifts the start timestamp forward by the paused
duration.  `none` models the `TypeError` Python would raise if the
timestamps were absent in the resume branch. -/
def lmusTogglePlayback (env : Env) (s : LocalMusicPlayer) :
    Option (Env × LocalMusicPlayer) :=
  match s.player_process with
  | some pid =>
    let (o, r) := env.os.poll pid
    if r = none then
      if s.player_paused then
        match s.playback_start_time, s.pause_time with
        | some st, some pt =>
          some ({ env with os := o },
                { s with playback_start_time := some (st + (env.now - pt)),
                         player_paused := false })
        | _, _ => none
      else
        some ({ env with os := o },
              { s with pause_time := some env.now, player_paused := true })
    else some ({ env with os := o }, s)
  | none => some (env, s)

/-- Python truthiness of a timestamp field (`0.0` and `None` are falsy). -/
def timeTruthy : Option Int → Bool
  | none => false
  | some t => t != 0

/-- The elapsed time computed by `LocalMusicPlayer.render_player`
(lines 127-129).  `none` models the `TypeError` raised when the pane is
paused with a pause timestamp but no start timestamp. -/
def lmusRenderElapsed (s : LocalMusicPlayer) (now : Int) : Option Int :=
  let e0 : Int :=
    match s.playback_start_time with
    | some st => if st == 0 then 0 else now - st
    | none => 0
  if s.player_paused && timeTruthy s.pause_time then
    match s.pause_time, s.playback_start_time with
    | some pt, some st => some (pt - st)
    | _, _ => none
  else some e0

/-! ## Key codes (curses `getch` values) and mouse events -/

def keyEnter : Int := 10
def keyJ : Int := 106
def keyK : Int := 107
def keyP : Int := 112
def keyN : Int := 110
def keyB : Int := 98
def keyT : Int := 116
def keyM : Int := 109
def keyQ : Int := 113
def keyEsc : Int := 27
def keyLowS : Int := 115
def keyBigS : Int := 83
def keyLowF : Int := 102
def keyBigF : Int := 70
def keyLowD : Int := 100
def keyBigD : Int := 68
def keyPlus : Int := 43
def keyMinus : Int := 45
def keyBackspaceCurses : Int := 263
def keyCtrlH : Int := 8
def keyDel : Int := 127
def keyDown : Int := 258
def keyUp : Int := 259
def keyMouseEvt : Int := 409
def button1Clicked : Int := 4

/-- `key in (curses.KEY_BACKSPACE, ord(chr(8)), 127)`. -/
def isBackspaceKey (key : Int) : Bool :=
  key == keyBackspaceCurses || key == keyCtrlH || key == keyDel

/-- The `(id, x, y, z, bstate)` tuple from `curses.getmouse()`. -/
structure MouseEvent where
  x : Int
  y : Int
  button : Int
deriving DecidableEq, Repr, Inhabited

/-! ## LocalMediaPlayer keypress handlers -/

/-- `LocalMediaPlayer.handle_player_keypress`. -/
def lmedHandlePlayerKeypress (env : Env) (s : LocalMediaPlayer) (key : Int) :
    Option (Env × LocalMediaPlayer × Bool) :=
  if isBackspaceKey key then some (env, { s with current_view := "explorer" }, true)
  else some (env, s, false)

/-- `LocalMediaPlayer.handle_explorer_keypress`.  `none` models the
uncaught `IndexError`/`ValueError` Python would raise on an out-of-range
selection or a missing playlist entry. -/
def lmedHandleExplorerKeypress (env : Env) (s : LocalMediaPlayer) (key : Int) :
    Option (Env × LocalMediaPlayer × Bool) :=
  if key == keyJ then
    let s' := if s.selected_index < s.file_list.length - 1 then
        { s with selected_index := s.selected_index + 1 } else s
    some (env, s', true)
  else if key == keyK then
    let s' := if s.selected_index > 0 then
        { s with selected_index := s.selected_index - 1 } else s
    some (env, s', true)
  else if key == keyEnter then
    match s.file_list.get? s.selected_index with
    | none => none
    | some item =>
      if item.isDir then
        some (env, { s with media_dir := item.path,
                            file_list := lmedGetDirectoryContent env.mediaIterdir item.path,
                            selected_index := 0 }, true)
      else
        let pl := s.file_list.filter (fun f =>
          f.isFile && mediaSuffixes.contains f.suffix.toLower)
        match pl.findIdx? (fun f => f == item) with
        | none => none
        | some i =>
          let (env', s') := lmedPlayMediaFile env
            { s with playlist := pl, current_media_index := some i } (pl.getD i default)
          some (env', { s' with current_view := "player" }, true)
  else if isBackspaceKey key then
    if s.media_dir == videosRoot then
      some (env, { s with current_view := "dashboard",
                          file_list := lmedGetMediaDirectories env.mediaIterdir s.media_dir },
            true)
    else
      some (env, { s with media_dir := parentPath s.media_dir,
                          file_list := lmedGetDirectoryContent env.mediaIterdir
                            (parentPath s.media_dir),
                          selected_index := 0 }, true)
  else some (env, s, false)

/-- `LocalMediaPlayer.handle_keypress`. -/
def lmedHandleKeypress (env : Env) (s : LocalMediaPlayer) (key : Int) :
    Option (Env × LocalMediaPlayer × Bool) :=
  if s.current_view == "dashboard" && key == keyEnter then
    some (env, { s with current_view := "explorer", media_dir := videosRoot,
                        file_list := lmedGetDirectoryContent env.mediaIterdir videosRoot,
                        selected_index := 0 }, true)
  else if s.current_view == "explorer" then lmedHandleExplorerKeypress env s key
  else if s.current_view == "player" then lmedHandlePlayerKeypress env s key
  else some (env, s, false)

/-! ## LocalMusicPlayer keypress and mouse handlers -/

/-- `LocalMusicPlayer.handle_explorer_keypress`. -/
def lmusHandleExplorerKeypress (env : Env) (s : LocalMusicPlayer) (key : Int) :
    Option (Env × LocalMusicPlayer × Bool) :=
  if key == keyJ then
    let s' := if s.selected_index < s.file_list.length - 1 then
        { s with selected_index := s.selected_index + 1 } else s
    some (env, s', true)
  else if key == keyK then
    let s' := if s.selected_index > 0 then
        { s with selected_index := s.selected_index - 1 } else s
    some (env, s', true)
  else if key == keyEnter then
    match s.file_list.get? s.selected_index with
    | none => none
    | some item =>
      if item.isDir then
        some (env, { s with music_dir := item.path,
                            file_list := lmusGetDirectoryContent env.musicIterdir item.path,
                            selected_index := 0 }, true)
      else
        let pl := s.file_list.filter (fun f => f.isFile && musicSuffixes.contains f.suffix)
        match pl.findIdx? (fun f => f == item) with
        | none => none
        | some i =>
          let (env', s') := lmusPlayMusicFile env
            { s with playlist := pl, current_track_index := some i } (pl.getD i default)
          some (env', { s' with current_view := "player" }, true)
  else if isBackspaceKey key then
    if s.music_dir == musicRoot then
      some (env, { s with current_view := "dashboard",
                          file_list := lmusGetMusicDirectories env.musicIterdir s.music_dir },
            true)
    else
      let s1 := { s with music_dir := parentPath s.music_dir,
                         file_list := lmusGetDirectoryContent env.musicIterdir
                           (parentPath s.music_dir),
                         selected_index := 0 }
      match s1.player_process with
      | some _ =>
        let (env1, s2) := lmusStopMusic env s1
        some (env1, s2, true)
      | none => some (env, s1, true)
  else some (env, s, false)

/-- `LocalMusicPlayer.handle_player_keypress` (its back-to-explorer branch
matches only `curses.KEY_BACKSPACE`, unlike the explorer handler). -/
def lmusHandlePlayerKeypress (env : Env) (s : LocalMusicPlayer) (key : Int) :
    Option (Env × LocalMusicPlayer × Bool) :=
  if key == keyP then
    (lmusTogglePlayback env s).map (fun r => (r.1, r.2, true))
  else if key == keyN then
    let (env1, s1) := lmusNextTrack env s
    some (env1, s1, true)
  else if key == keyB then
    let (env1, s1) := lmusPreviousTrack env s
    some (env1, s1, true)
  else if key == keyBackspaceCurses then
    let (env1, s1) := lmusStopMusic env s
    some (env1, { s1 with current_view := "explorer" }, true)
  else some (env, s, false)

/-- `LocalMusicPlayer.handle_keypress`. -/
def lmusHandleKeypress (env : Env) (s : LocalMusicPlayer) (key : Int) :
    Option (Env × LocalMusicPlayer × Bool) :=
  if s.current_view == "dashboard" && key == keyEnter then
    some (env, { s with current_view := "explorer", music_dir := musicRoot,
                        file_list := lmusGetDirectoryContent env.musicIterdir musicRoot,
                        selected_index := 0 }, true)
  else if s.current_view == "explorer" then lmusHandleExplorerKeypress env s key
  else if s.current_view == "player" then lmusHandlePlayerKeypress env s key
  else some (env, s, false)

/-- `LocalMusicPlayer.handle_mouse`: hit-test the rendered transport
buttons in insertion order and fire the first match. -/
def lmusHandleMouse (env : Env) (s : LocalMusicPlayer) (ev : MouseEvent) :
    Option (Env × LocalMusicPlayer) :=
  if ev.button == button1Clicked then
    match s.button_regions.find? (fun r =>
        ev.y == r.btnY && decide (r.btnX ≤ ev.x) && decide (ev.x < r.btnX + r.btnW)) with
    | some r =>
      if r.action == "back" then some (lmusPreviousTrack env s)
      else if r.action == "play_pause" then lmusTogglePlayback env s
      else if r.action == "next" then some (lmusNextTrack env s)
      else some (env, s)
    | none => some (env, s)
  else some (env, s)

/-! ## SpotifyPlayer (src/spotify_player.py), partial

Only the fields the navigation layer touches and the volume operations
are embedded; the rest of the class drives the external Spotify web
service.  Its keypress / mouse handlers are abstracted as parameters of
the dashboard functions below. -/

structure SpotifyPlayer where
  current_view : String
  selected_index : Nat
  current_playlist : Option String
  volume : Int
deriving DecidableEq, Repr, Inhabited

/-- `SpotifyPlayer.increase_volume` (the stored field update; the
`sp.volume` API call and its error handling are external). -/
def spIncreaseVolume (s : SpotifyPlayer) : SpotifyPlayer :=
  { s with volume := min 100 (s.volume + 10) }

/-- `SpotifyPlayer.decrease_volume`. -/
def spDecreaseVolume (s : SpotifyPlayer) : SpotifyPlayer :=
  { s with volume := max 0 (s.volume - 10) }

/-! ## RadioPlayer (src/radio_player.py) -/

structure RadioPlayer where
  current_view : String
  volume : Int
  stations : List Station
  favorites : List Station
  selected_index : Nat
  current_station : Option Station
  player_process : Option Nat
deriving Repr, Inhabited

/-- `RadioPlayer.save_favorites`: rewrite the favorites file wholesale. -/
def radioSaveFavorites (env : Env) (s : RadioPlayer) : Env :=
  { env with favFile := some s.favorites }

/-- `RadioPlayer.stop_station`: terminate without waiting (no `poll`
guard; terminating an already-exited child is a no-op). -/
def radioStopStation (env : Env) (s : RadioPlayer) : Env × RadioPlayer :=
  match s.player_process with
  | some pid => ({ env with os := env.os.terminate pid }, { s with player_process := none })
  | none => (env, s)

/-- `RadioPlayer.play_station`: the stream URL only feeds the spawned
player's argument list, which the OS model does not record. -/
def radioPlayStation (env : Env) (s : RadioPlayer) (_url : String) : Env × RadioPlayer :=
  let (env1, s1) := radioStopStation env s
  let (os2, pid) := env1.os.spawn
  ({ env1 with os := os2 }, { s1 with player_process := some pid })

/-- `RadioPlayer.change_volume`: clamp to [0, 100] (the `amixer` call is
external). -/
def radioChangeVolume (s : RadioPlayer) (delta : Int) : RadioPlayer :=
  { s with volume := max 0 (min 100 (s.volume + delta)) }

/-- `RadioPlayer.handle_radio_keypress` (`search_stations` fetches from
the Radio Browser API, an external collaborator modelled by the
`radioSearch` oracle, which already accounts for the empty-on-failure
fallback). -/
def radioHandleRadioKeypress (env : Env) (s : RadioPlayer) (key : Int) :
    Option (Env × RadioPlayer × Bool) :=
  if key == keyLowS || key == keyBigS then
    some (env, { s with stations := env.radioSearch, current_view := "stations",
                        selected_index := 0 }, true)
  else if key == keyLowF || key == keyBigF then
    some (env, { s with current_view := "favorites", selected_index := 0 }, true)
  else if key == keyPlus then some (env, radioChangeVolume s 5, true)
  else if key == keyMinus then some (env, radioChangeVolume s (-5), true)
  else if isBackspaceKey key then
    let (env1, s1) := radioStopStation env s
    some (env1, { s1 with current_view := "dashboard" }, true)
  else some (env, s, false)

/-- `RadioPlayer.handle_stations_keypress`.  `none` models the uncaught
`IndexError` on an out-of-range selection. -/
def radioHandleStationsKeypress (env : Env) (s : RadioPlayer) (key : Int) :
    Option (Env × RadioPlayer × Bool) :=
  if key == keyJ || key == keyDown then
    let s' := if s.selected_index < s.stations.length - 1 then
        { s with selected_index := s.selected_index + 1 } else s
    some (env, s', true)
  else if key == keyK || key == keyUp then
    let s' := if s.selected_index > 0 then
        { s with selected_index := s.selected_index - 1 } else s
    some (env, s', true)
  else if key == keyEnter then
    match s.stations.get? s.selected_index with
    | none => none
    | some st =>
      let (env1, s1) := radioPlayStation env { s with current_station := some st }
        st.url_resolved
      some (env1, { s1 with current_view := "radio" }, true)
  else if key == keyLowF || key == keyBigF then
    match s.stations.get? s.selected_index with
    | none => none
    | some st =>
      if st ∈ s.favorites then some (env, s, true)
      else
        let s1 := { s with favorites := s.favorites ++ [st] }
        some (radioSaveFavorites env s1, s1, true)
  else if isBackspaceKey key then
    some (env, { s with current_view := "radio" }, true)
  else some (env, s, false)

/-- `RadioPlayer.handle_favorites_keypress`. -/
def radioHandleFavoritesKeypress (env : Env) (s : RadioPlayer) (key : Int) :
    Option (Env × RadioPlayer × Bool) :=
  if key == keyJ || key == keyDown then
    let s' := if s.selected_index < s.favorites.length - 1 then
        { s with selected_index := s.selected_index + 1 } else s
    some (env, s', true)
  else if key == keyK || key == keyUp then
    let s' := if s.selected_index > 0 then
        { s with selected_index := s.selected_index - 1 } else s
    some (env, s', true)
  else if key == keyEnter then
    match s.favorites.get? s.selected_index with
    | none => none
    | some st =>
      let (env1, s1) := radioPlayStation env { s with current_station := some st }
        st.url_resolved
      some (env1, { s1 with current_view := "radio" }, true)
  else if key == keyLowD || key == keyBigD then
    if s.selected_index < s.favorites.length then
      let s1 := { s with favorites := s.favorites.eraseIdx s.selected_index }
      let env1 := radioSaveFavorites env s1
      let s2 := if s1.favorites.length ≤ s1.selected_index && s1.selected_index > 0 then
          { s1 with selected_index := s1.selected_index - 1 } else s1
      some (env1, s2, true)
    else none
  else if isBackspaceKey key then
    some (env, { s with current_view := "radio" }, true)
  else some (env, s, false)

/-- `RadioPlayer.handle_keypress`. -/
def radioHandleKeypress (env : Env) (s : RadioPlayer) (key : Int) :
    Option (Env × RadioPlayer × Bool) :=
  if s.current_view == "radio" then radioHandleRadioKeypress env s key
  else if s.current_view == "stations" then radioHandleStationsKeypress env s key
  else if s.current_view == "favorites" then radioHandleFavoritesKeypress env s key
  else some (env, s, false)

/-- `RadioPlayer.handle_mouse` is `pass`. -/
def radioHandleMouse (env : Env) (s : RadioPlayer) (_ev : MouseEvent) :
    Option (Env × RadioPlayer) :=
  some (env, s)

/-! ## MediaDashboardApp (src/main.py)

`self.windows = [LocalMusicPlayer, LocalMediaPlayer, SpotifyPlayer,
RadioPlayer]`.  The Spotify pane's keypress / mouse handlers are not
embedded (they drive the external web service); the dashboard functions
take them as parameters and the navigation theorems hold for every such
handler. -/

abbrev SpotifyKeyHandler := Env → SpotifyPlayer → Int → Option (Env × SpotifyPlayer × Bool)
abbrev SpotifyMouseHandler := Env → SpotifyPlayer → MouseEvent → Option (Env × SpotifyPlayer)

inductive Pane where
  | music : LocalMusicPlayer → Pane
  | media : LocalMediaPlayer → Pane
  | spotify : SpotifyPlayer → Pane
  | radio : RadioPlayer → Pane
deriving Inhabited

def Pane.currentView : Pane → String
  | Pane.music s => s.current_view
  | Pane.media s => s.current_view
  | Pane.spotify s => s.current_view
  | Pane.radio s => s.current_view

def Pane.selectedIndex : Pane → Nat
  | Pane.music s => s.selected_index
  | Pane.media s => s.selected_index
  | Pane.spotify s => s.selected_index
  | Pane.radio s => s.selected_index

def Pane.setCurrentView : Pane → String → Pane
  | Pane.music s, v => Pane.music { s with current_view := v }
  | Pane.media s, v => Pane.media { s with current_view := v }
  | Pane.spotify s, v => Pane.spotify { s with current_view := v }
  | Pane.radio s, v => Pane.radio { s with current_view := v }

def Pane.setSelectedIndex : Pane → Nat → Pane
  | Pane.music s, i => Pane.music { s with selected_index := i }
  | Pane.media s, i => Pane.media { s with selected_index := i }
  | Pane.spotify s, i => Pane.spotify { s with selected_index := i }
  | Pane.radio s, i => Pane.radio { s with selected_index := i }

/-- `isinstance(module, RadioPlayer)`. -/
def Pane.isRadio : Pane → Bool
  | Pane.radio _ => true
  | _ => false

/-- `isinstance(module, SpotifyPlayer)`: reset `current_playlist`. -/
def Pane.clearSpotifyPlaylist : Pane → Pane
  | Pane.spotify s => Pane.spotify { s with current_playlist := none }
  | p => p

/-- `hasattr(module, 'handle_mouse')`: the video pane has none. -/
def Pane.hasHandleMouse : Pane → Bool
  | Pane.media _ => false
  | _ => true

def Pane.handleKeypress (shk : SpotifyKeyHandler) (env : Env) :
    Pane → Int → Option (Env × Pane × Bool)
  | Pane.music s, key =>
    (lmusHandleKeypress env s key).map (fun r => (r.1, Pane.music r.2.1, r.2.2))
  | Pane.media s, key =>
    (lmedHandleKeypress env s key).map (fun r => (r.1, Pane.media r.2.1, r.2.2))
  | Pane.spotify s, key =>
    (shk env s key).map (fun r => (r.1, Pane.spotify r.2.1, r.2.2))
  | Pane.radio s, key =>
    (radioHandleKeypress env s key).map (fun r => (r.1, Pane.radio r.2.1, r.2.2))

/-- Dispatch of `module.handle_mouse(event)`; only ever called under the
`hasHandleMouse` guard, so the video case is inert. -/
def Pane.handleMouse (shm : SpotifyMouseHandler) (env : Env) :
    Pane → MouseEvent → Option (Env × Pane)
  | Pane.music s, ev => (lmusHandleMouse env s ev).map (fun r => (r.1, Pane.music r.2))
  | Pane.media s, _ => some (env, Pane.media s)
  | Pane.spotify s, ev => (shm env s ev).map (fun r => (r.1, Pane.spotify r.2))
  | Pane.radio s, ev => (radioHandleMouse env s ev).map (fun r => (r.1, Pane.radio r.2))

/-- `MediaDashboardApp.cleanup` per module: `stop_media` where the module
has it (music, video), `stop_station` on the radio pane. -/
def Pane.cleanupModule (env : Env) : Pane → Env × Pane
  | Pane.music s => let (e, s') := lmusStopMedia env s; (e, Pane.music s')
  | Pane.media s => let (e, s', _, _) := lmedStopMedia env s true false; (e, Pane.media s')
  | Pane.spotify s => (env, Pane.spotify s)
  | Pane.radio s => let (e, s') := radioStopStation env s; (e, Pane.radio s')

structure Windows where
  w0 : Pane
  w1 : Pane
  w2 : Pane
  w3 : Pane

def Windows.get (w : Windows) : Nat → Option Pane
  | 0 => some w.w0
  | 1 => some w.w1
  | 2 => some w.w2
  | 3 => some w.w3
  | _ => none

def Windows.set (w : Windows) (n : Nat) (p : Pane) : Windows :=
  match n with
  | 0 => { w with w0 := p }
  | 1 => { w with w1 := p }
  | 2 => { w with w2 := p }
  | 3 => { w with w3 := p }
  | _ => w

structure AppState where
  monocle_mode : Bool
  active_window : Nat
  windows : Windows

/-- `MediaDashboardApp.cleanup`. -/
def appCleanup (env : Env) (app : AppState) : Env × AppState :=
  let (e0, p0) := app.windows.w0.cleanupModule env
  let (e1, p1) := app.windows.w1.cleanupModule e0
  let (e2, p2) := app.windows.w2.cleanupModule e1
  let (e3, p3) := app.windows.w3.cleanupModule e2
  (e3, { app with windows := ⟨p0, p1, p2, p3⟩ })

/-- The quadrant-selection part of `MediaDashboardApp.handle_mouse`:
activate the clicked quadrant, enter Monocle, force the pane's entry view
and reset its selection cursor (clearing the Spotify playlist cache). -/
def appMouseQuadrant (env : Env) (app : AppState) (ev : MouseEvent) :
    Option (Env × AppState) :=
  let midY := env.scrH / 2
  let midX := env.scrW / 2
  if ev.button == button1Clicked then
    let aw : Nat :=
      if ev.y < midY ∧ ev.x < midX then 0
      else if ev.y < midY ∧ midX ≤ ev.x then 1
      else if midY ≤ ev.y ∧ ev.x < midX then 2
      else 3
    match app.windows.get aw with
    | some m =>
      let m1 := (m.setCurrentView (if m.isRadio then "radio" else "explorer")).setSelectedIndex 0
      let m2 := m1.clearSpotifyPlaylist
      some (env, { app with active_window := aw, monocle_mode := true,
                            windows := app.windows.set aw m2 })
    | none => some (env, app)
  else some (env, app)

/-- `MediaDashboardApp.handle_mouse`: in Monocle the event is delegated to
the active pane when it has a mouse handler; the video pane (which has
none) falls through to the quadrant logic, as does Tiled layout. -/
def appHandleMouse (shm : SpotifyMouseHandler) (env : Env) (app : AppState)
    (ev : MouseEvent) : Option (Env × AppState) :=
  if app.monocle_mode then
    match app.windows.get app.active_window with
    | some m =>
      if m.hasHandleMouse then
        match Pane.handleMouse shm env m ev with
        | none => none
        | some (env1, m1) =>
          some (env1, { app with windows := app.windows.set app.active_window m1 })
      else appMouseQuadrant env app ev
    | none => none
  else appMouseQuadrant env app ev

/-- The tail of `MediaDashboardApp.handle_keypress` after the Monocle pane
dispatch: the global command chain guarded by `not key_handled`, followed
by the unconditional Backspace-to-Tiled check gated on the pane's
"dashboard" view.  `m` is the active module object (already updated by
its own handler), `mev` the queued mouse event `curses.getmouse()` would
return. -/
def appHandleKeypressRest (shm : SpotifyMouseHandler) (env : Env) (app : AppState)
    (m : Pane) (key : Int) (key_handled : Bool) (mev : MouseEvent) :
    Option (Env × AppState × Bool) :=
  if !key_handled then
    if key == keyQ || key == keyEsc then
      let (env1, app1) := appCleanup env app
      some (env1, app1, true)
    else if key == keyM then
      some (env, { app with monocle_mode := true }, true)
    else
      match
        (if key == keyT then
          some (env, { app with monocle_mode := false })
        else if app.monocle_mode && key == keyJ then
          some (env, if m.currentView == "dashboard" ∧ app.active_window < 4 - 1 then
              { app with active_window := app.active_window + 1 } else app)
        else if app.monocle_mode && key == keyK then
          some (env, if m.currentView == "dashboard" ∧ 0 < app.active_window then
              { app with active_window := app.active_window - 1 } else app)
        else if key == keyMouseEvt then
          appHandleMouse shm env app mev
        else some (env, app) : Option (Env × AppState)) with
      | none => none
      | some (env1, app1) =>
        let app2 := if isBackspaceKey key && app1.monocle_mode then
            (if m.currentView == "dashboard" then { app1 with monocle_mode := false } else app1)
          else app1
        some (env1, app2, false)
  else
    let app2 := if isBackspaceKey key && app.monocle_mode then
        (if m.currentView == "dashboard" then { app with monocle_mode := false } else app)
      else app
    some (env, app2, false)

/-- `MediaDashboardApp.handle_keypress`: in Monocle the key is first
offered to the active pane; a pane publishing the reserved "exit" view
forces Tiled immediately; otherwise the global chain runs.  The returned
Bool is the truthiness of the Python return value (`True` breaks the main
loop). -/
def appHandleKeypress (shk : SpotifyKeyHandler) (shm : SpotifyMouseHandler)
    (env : Env) (app : AppState) (key : Int) (mev : MouseEvent) :
    Option (Env × AppState × Bool) :=
  match app.windows.get app.active_window with
  | none => none
  | some m0 =>
    if app.monocle_mode then
      match Pane.handleKeypress shk env m0 key with
      | none => none
      | some (env1, m1, handled) =>
        let app1 := { app with windows := app.windows.set app.active_window m1 }
        if m1.currentView == "exit" then
          some (env1, { app1 with monocle_mode := false }, true)
        else
          appHandleKeypressRest shm env1 app1 m1 key handled mev
    else
      appHandleKeypressRest shm env app m0 key false mev

/-! ## Scenario definitions and concrete fixtures

`lmedStartTwice` is the start(A)-then-start(B) scenario from the
specification.  `specStopOrdering` renders the cancellation ordering the
specification demands (section 5) over the observable trace of a stop:
first the cancel flag, then the join, then terminate-and-reap, with the
endpoint never deleted before the monitor has been joined; it follows the
words of the spec so that the trace the code produces can be compared
against it. -/

def lmedStartTwice (env : Env) (s : LocalMediaPlayer) (a b : Entry) :
    Env × LocalMediaPlayer :=
  let (env1, s1) := lmedPlayMediaFile env s a
  lmedPlayMediaFile env1 s1 b

/-- The same start(A)-then-start(B) scenario on the music pane. -/
def lmusStartTwice (env : Env) (s : LocalMusicPlayer) (a b : Entry) :
    Env × LocalMusicPlayer :=
  let (env1, s1) := lmusPlayMusicFile env s a
  lmusPlayMusicFile env1 s1 b

def specStopOrdering (t : List StopEvent) : Bool :=
  decide (t.indexOf StopEvent.setCancelFlag < t.indexOf StopEvent.joinMonitor) &&
  decide (t.indexOf StopEvent.joinMonitor < t.indexOf StopEvent.termProc) &&
  decide (t.indexOf StopEvent.joinMonitor < t.indexOf StopEvent.removeSocket)

def osEmpty : OS := ⟨[], 0, []⟩

def envBase : Env := ⟨osEmpty, fun _ => [], fun _ => [], none, 0, 7, 24, 80, []⟩

def entryA : Entry := ⟨["Videos", "show", "a.mp4"], "a.mp4", false, true, ".mp4"⟩

def entryB : Entry := ⟨["Videos", "show", "b.mp4"], "b.mp4", false, true, ".mp4"⟩

def osOneRunning : OS := ⟨[(0, ⟨ProcStatus.running, false⟩)], 1, ["/tmp/mpv_socket_7"]⟩

def envPlay : Env := { envBase with os := osOneRunning, now := 100 }

def mediaPlaying : LocalMediaPlayer :=
  ⟨["Videos", "show"], 0, [entryA, entryB], some 0, "player",
   some ⟨"a", "Videos/show/a.mp4"⟩, some 100, false, [entryA, entryB], some 0,
   some "/tmp/mpv_socket_7", true, true⟩

def mediaLast : LocalMediaPlayer :=
  { mediaPlaying with current_media_index := some 1,
                      current_media_info := some ⟨"b", "Videos/show/b.mp4"⟩ }

def osExited1 : OS := ⟨[(0, ⟨ProcStatus.exited 1, false⟩)], 1, []⟩

def envExited : Env := { envBase with os := osExited1 }

def mediaCrashed : LocalMediaPlayer := { mediaPlaying with current_view := "explorer" }

def mediaIdle : LocalMediaPlayer :=
  ⟨["Videos"], 0, [], none, "dashboard", none, none, false, [], none, none, false, false⟩

def stationA : Station := ⟨"Jazz FM", "http://example.org/jazz"⟩

def radioStationsDup : RadioPlayer := ⟨"stations", 50, [stationA], [stationA], 0, none, none⟩

def musicDash : LocalMusicPlayer :=
  ⟨musicRoot, 0, [], none, "dashboard", [], false, none, none, none, [], none⟩

def osMusRunning : OS := ⟨[(0, ⟨ProcStatus.running, false⟩)], 1, []⟩

def musW : LocalMusicPlayer :=
  { musicDash with current_view := "player", player_process := some 0,
                   playback_start_time := some 100 }

def envMusP : Env := { envBase with os := osMusRunning, now := 150 }

def envMusR : Env := { envBase with os := osMusRunning, now := 500 }

def musW1 : LocalMusicPlayer := { musW with pause_time := some 150, player_paused := true }

def musW2 : LocalMusicPlayer :=
  { musW1 with playback_start_time := some 450, player_paused := false }

def spotifyIdle : SpotifyPlayer := ⟨"explorer", 0, none, 50⟩

def radioIdle : RadioPlayer := ⟨"radio", 50, [], [], 0, none, none⟩

def mediaPlayerView : LocalMediaPlayer :=
  ⟨videosRoot, 0, [], none, "player", none, none, false, [], none, none, false, false⟩

def mediaBusy : LocalMediaPlayer := { mediaPlayerView with selected_index := 3 }

def mediaSubdir : LocalMediaPlayer :=
  ⟨["Videos", "show"], 2, [], none, "explorer", none, none, false, [], none, none, false,
   false⟩

def mediaSubdirUp : LocalMediaPlayer :=
  { mediaSubdir with media_dir := ["Videos"], file_list := [], selected_index := 0 }

/-- An inert keypress handler standing in for the non-embedded Spotify
pane in concrete scenarios where that pane is never active. -/
def shkStub : SpotifyKeyHandler := fun env s _ => some (env, s, false)

def shmStub : SpotifyMouseHandler := fun env s _ => some (env, s)

def mevNone : MouseEvent := ⟨0, 0, 0⟩

def evClick : MouseEvent := ⟨0, 0, 4⟩

def appMonocleMediaPlayer : AppState :=
  ⟨true, 1, ⟨Pane.music musicDash, Pane.media mediaPlayerView, Pane.spotify spotifyIdle,
    Pane.radio radioIdle⟩⟩

def appMonocleMusicDash : AppState :=
  ⟨true, 0, ⟨Pane.music musicDash, Pane.media mediaBusy, Pane.spotify spotifyIdle,
    Pane.radio radioIdle⟩⟩

def appC5b : AppState :=
  ⟨true, 1, ⟨Pane.music musicDash, Pane.media mediaBusy, Pane.spotify spotifyIdle,
    Pane.radio radioIdle⟩⟩

def resC5b : Env × AppState × Bool := (envBase, appC5b, false)

def appTiled : AppState :=
  ⟨false, 0, ⟨Pane.music musicDash, Pane.media mediaBusy, Pane.spotify spotifyIdle,
    Pane.radio radioIdle⟩⟩

def musicReset : LocalMusicPlayer := { musicDash with current_view := "explorer" }

def appC5a : AppState :=
  ⟨true, 0, ⟨Pane.music musicReset, Pane.media mediaBusy, Pane.spotify spotifyIdle,
    Pane.radio radioIdle⟩⟩

def appC4W : AppState :=
  ⟨true, 1, ⟨Pane.music musicDash, Pane.media mediaSubdir, Pane.spotify spotifyIdle,
    Pane.radio radioIdle⟩⟩

def appC4WRes : AppState :=
  ⟨true, 1, ⟨Pane.music musicDash, Pane.media mediaSubdirUp, Pane.spotify spotifyIdle,
    Pane.radio radioIdle⟩⟩

def resC4W : Env × AppState × Bool := (envBase, appC4WRes, false)

def mediaDash : LocalMediaPlayer :=
  ⟨videosRoot, 0, [], none, "dashboard", none, none, false, [], none, none, false, false⟩

def musicBusy : LocalMusicPlayer :=
  { musicDash with current_view := "player", selected_index := 3 }

def appMonocleMediaDash : AppState :=
  ⟨true, 1, ⟨Pane.music musicBusy, Pane.media mediaDash, Pane.spotify spotifyIdle,
    Pane.radio radioIdle⟩⟩

def appC5c : AppState :=
  ⟨true, 0, ⟨Pane.music musicBusy, Pane.media mediaDash, Pane.spotify spotifyIdle,
    Pane.radio radioIdle⟩⟩

def resC5c : Env × AppState × Bool := (envBase, appC5c, false)

def mediaLastExplorer : LocalMediaPlayer := { mediaLast with current_view := "explorer" }

/-! ## Helper lemmas about the OS model -/

theorem pollOfIsRunning (os : OS) (pid : Nat) (h : os.isRunning pid = true) :
    os.poll pid = (os, none) := by
  unfold OS.isRunning at h
  unfold OS.poll
  cases hf : os.find pid with
  | none => rw [hf] at h
  | some info =>
    rw [hf] at h
    simp only at h
    cases hs : info.status with
    | running => simp [hs]
    | exited c => rw [hs] at h; simp at h

theorem findEntryMap (l : List (Nat × ProcInfo)) (pid q : Nat) (f : ProcInfo → ProcInfo) :
    (l.map (fun p => if p.1 == pid then (p.1, f p.2) else p)).find? (fun p => p.1 == q)
      = (l.find? (fun p => p.1 == q)).map
          (fun p => if p.1 == pid then (p.1, f p.2) else p) := by
  induction l with
  | nil => rfl
  | cons a t ih =>
    have hkey : ((if a.1 == pid then (a.1, f a.2) else a).1 == q) = (a.1 == q) := by
      by_cases hp : a.1 = pid <;> simp [hp]
    by_cases hq : a.1 = q
    · have h1 : (a.1 == q) = true := by simp [hq]
      have e1 : List.find? (fun p => p.1 == q)
          ((if a.1 == pid then (a.1, f a.2) else a) ::
            t.map (fun p => if p.1 == pid then (p.1, f p.2) else p))
          = some (if a.1 == pid then (a.1, f a.2) else a) :=
        List.find?_cons_of_pos _ (hkey.trans h1)
      have e2 : List.find? (fun p => p.1 == q) (a :: t) = some a :=
        List.find?_cons_of_pos _ h1
      rw [List.map_cons, e1, e2]
      rfl
    · have h1 : (a.1 == q) = false := by simp [hq]
      have hne : ¬(((if a.1 == pid then (a.1, f a.2) else a).1 == q) = true) := by
        intro hb
        rw [hkey, h1] at hb
        exact Bool.false_ne_true hb
      have e1 : List.find? (fun p => p.1 == q)
          ((if a.1 == pid then (a.1, f a.2) else a) ::
            t.map (fun p => if p.1 == pid then (p.1, f p.2) else p))
          = List.find? (fun p => p.1 == q)
              (t.map (fun p => if p.1 == pid then (p.1, f p.2) else p)) :=
        List.find?_cons_of_neg _ hne
      have e2 : List.find? (fun p => p.1 == q) (a :: t)
          = List.find? (fun p => p.1 == q) t :=
        List.find?_cons_of_neg _ (by simp [h1])
      rw [List.map_cons, e1, e2, ih]

theorem find_setProc (os : OS) (pid q : Nat) (f : ProcInfo → ProcInfo) :
    (os.setProc pid f).find q
      = (os.find q).map (fun i => if q == pid then f i else i) := by
  unfold OS.setProc OS.find
  simp only
  rw [findEntryMap]
  cases hf : os.procs.find? (fun p => p.1 == q) with
  | none => rfl
  | some p =>
    have hpq : p.1 = q := by
      have hp := List.find?_some hf
      simpa using hp
    by_cases hpid : q = pid
    · have hp1 : p.1 = pid := hpq.trans hpid
      simp [hp1, hpid]
    · have hp1 : ¬(p.1 = pid) := fun hc => hpid (hpq.symm.trans hc)
      simp [hp1, hpid]

theorem nextPid_setProc (os : OS) (pid : Nat) (f : ProcInfo → ProcInfo) :
    (os.setProc pid f).nextPid = os.nextPid := rfl

theorem find_spawn_new (os : OS) (h : os.find os.nextPid = none) :
    (os.spawn.1).find os.nextPid = some ⟨ProcStatus.running, false⟩ := by
  unfold OS.spawn OS.find at *
  have h' : os.procs.find? (fun p => p.1 == os.nextPid) = none := by
    cases hf : os.procs.find? (fun p => p.1 == os.nextPid) with
    | none => rfl
    | some p => rw [hf] at h; simp at h
  simp [List.find?_append, h']

theorem find_spawnIpc_new (os : OS) (sock : String) (h : os.find os.nextPid = none) :
    ((os.spawnIpc sock).1).find os.nextPid = some ⟨ProcStatus.running, false⟩ := by
  unfold OS.spawnIpc
  exact find_spawn_new os h

theorem isRunning_of_find_running (os : OS) (pid : Nat)
    (h : os.find pid = some ⟨ProcStatus.running, false⟩) : os.isRunning pid = true := by
  unfold OS.isRunning
  rw [h]
  rfl

/-! ## C10: volume clamping -/

/-- C10: assuming the stored volume starts in [0, 100], the radio pane's
`change_volume` (any delta) and the Spotify pane's `increase_volume` and
`decrease_volume` keep it within [0, 100]. -/
theorem volume_ops_clamped (sr : RadioPlayer) (ss : SpotifyPlayer) (delta : Int)
    (hr0 : 0 ≤ sr.volume) (hr1 : sr.volume ≤ 100)
    (hs0 : 0 ≤ ss.volume) (hs1 : ss.volume ≤ 100) :
    (0 ≤ (radioChangeVolume sr delta).volume ∧ (radioChangeVolume sr delta).volume ≤ 100) ∧
    (0 ≤ (spIncreaseVolume ss).volume ∧ (spIncreaseVolume ss).volume ≤ 100) ∧
    (0 ≤ (spDecreaseVolume ss).volume ∧ (spDecreaseVolume ss).volume ≤ 100) := by
  simp only [radioChangeVolume, spIncreaseVolume, spDecreaseVolume]
  omega

/-- C10 witness: the clamping theorem applied at volume 50 with delta 7. -/
theorem volume_ops_clamped_witness :
    (0 ≤ (radioChangeVolume ⟨"radio", 50, [], [], 0, none, none⟩ 7).volume ∧
      (radioChangeVolume ⟨"radio", 50, [], [], 0, none, none⟩ 7).volume ≤ 100) ∧
    (0 ≤ (spIncreaseVolume ⟨"explorer", 0, none, 50⟩).volume ∧
      (spIncreaseVolume ⟨"explorer", 0, none, 50⟩).volume ≤ 100) ∧
    (0 ≤ (spDecreaseVolume ⟨"explorer", 0, none, 50⟩).volume ∧
      (spDecreaseVolume ⟨"explorer", 0, none, 50⟩).volume ≤ 100) :=
  volume_ops_clamped ⟨"radio", 50, [], [], 0, none, none⟩ ⟨"explorer", 0, none, 50⟩ 7
    (by decide) (by decide) (by decide) (by decide)

/-! ## C9: adding an already-favorited station is a no-op -/

/-- C9: pressing the add-to-favorites key (`f` or `F`) in the stations
view on a station already in the favorites list leaves the pane state and
the persisted favorites file (the whole environment) unchanged. -/
theorem favorites_add_idempotent (env : Env) (s : RadioPlayer) (st : Station)
    (hst : s.stations[s.selected_index]? = some st)
    (hmem : st ∈ s.favorites) :
    radioHandleStationsKeypress env s keyLowF = some (env, s, true) ∧
    radioHandleStationsKeypress env s keyBigF = some (env, s, true) := by
  constructor <;>
    simp [radioHandleStationsKeypress, keyLowF, keyBigF, keyJ, keyK, keyDown, keyUp,
      keyEnter, isBackspaceKey, keyBackspaceCurses, keyCtrlH, keyDel,
      List.get?_eq_getElem?, hst, hmem]

theorem terminate_nextPid (os : OS) (pid : Nat) : (os.terminate pid).nextPid = os.nextPid :=
  rfl

theorem terminate_find_none (os : OS) (pid q : Nat) (h : os.find q = none) :
    (os.terminate pid).find q = none := by
  unfold OS.terminate
  rw [find_setProc, h]
  rfl

theorem terminate_sockets (os : OS) (pid : Nat) : (os.terminate pid).sockets = os.sockets :=
  rfl

theorem wait_fst_nextPid (os : OS) (pid : Nat) : ((os.wait pid).1).nextPid = os.nextPid := by
  unfold OS.wait
  cases hf : os.find pid with
  | none => rfl
  | some info => cases hs : info.status <;> simp [hs, OS.setProc]

theorem wait_fst_find_none (os : OS) (pid q : Nat) (h : os.find q = none) :
    ((os.wait pid).1).find q = none := by
  unfold OS.wait
  cases hf : os.find pid with
  | none => exact h
  | some info =>
    cases hs : info.status <;> simp [hs, find_setProc, h]

theorem wait_fst_sockets (os : OS) (pid : Nat) : ((os.wait pid).1).sockets = os.sockets := by
  unfold OS.wait
  cases hf : os.find pid with
  | none => rfl
  | some info => cases hs : info.status <;> simp [hs, OS.setProc]

/-- Closed form of `stop_media(clean_ipc=False)` executed on the monitor
thread itself (the `handle_playback_end` path): the process is terminated
and reaped and the fields cleared, then the self-join raises before any
join happens, leaving the thread flag up. -/
theorem lmedStopMedia_monitor_spec (env : Env) (s : LocalMediaPlayer) (pid : Nat)
    (hproc : s.player_process = some pid) (hrun : env.os.isRunning pid = true)
    (hthread : s.mpv_thread_alive = true) :
    lmedStopMedia env s false true =
      ({ env with os := ((env.os.terminate pid).wait pid).1 },
       { s with player_process := none, playback_start_time := none, player_paused := false,
                current_media_info := none, monitoring_mpv := false },
       [StopEvent.termProc, StopEvent.waitProc, StopEvent.setCancelFlag], true) := by
  unfold lmedStopMedia
  simp only [hproc]
  rw [pollOfIsRunning env.os pid hrun]
  simp [hthread]

/-- C1: evaluation of the code at the failing input.  With playlist
[a.mp4, b.mp4], cursor 0, mpv running as pid 0 and a live monitor thread,
the "track finished" signal does NOT advance the cursor: the handler runs
on the monitor thread, where the self-join inside `stop_media` raises
`RuntimeError` before the advance; the old process has been terminated
and reaped, the cursor is still 0, no new process has been spawned, and
the exception escapes the handler (to be swallowed by
`monitor_mpv_events`).  This contradicts the claimed (and clearly
intended) advance-by-one behavior: the code, not the claim, is at fault. -/
theorem handle_playback_end_self_join_raises :
    (lmedHandlePlaybackEnd envPlay mediaPlaying).2.2 = true ∧
    (lmedHandlePlaybackEnd envPlay mediaPlaying).2.1.current_media_index = some 0 ∧
    (lmedHandlePlaybackEnd envPlay mediaPlaying).2.1.player_process = none ∧
    (lmedHandlePlaybackEnd envPlay mediaPlaying).1.os.aliveCount = 0 ∧
    (lmedHandlePlaybackEnd envPlay mediaPlaying).1.os.nextPid = 1 :=
  ⟨rfl, rfl, rfl, rfl, rfl⟩

/-- C3 counterexample: on a session with a running player, a live monitor
thread and an existing socket endpoint, the trace `stop_media` actually
produces terminates and reaps the process first, deletes the endpoint
second, and only then sets the cancellation flag and joins the monitor —
violating the claimed flag/join/terminate order and deleting the endpoint
before the monitor has exited. -/
theorem stop_media_ordering_cex :
    (lmedStopMedia envPlay mediaPlaying true false).2.2.1 =
      [StopEvent.termProc, StopEvent.waitProc, StopEvent.removeSocket,
       StopEvent.setCancelFlag, StopEvent.joinMonitor] ∧
    specStopOrdering (lmedStopMedia envPlay mediaPlaying true false).2.2.1 = false :=
  ⟨rfl, rfl⟩

/-- C3 amended: on every stop of an active session (running process,
socket endpoint present, live monitor), `stop_media` performs, in this
order: terminate the process, wait for it, delete the channel endpoint,
set the cancellation flag, join the monitor thread — the reverse of the
order the specification prescribes, with the endpoint deleted before the
monitor is joined. -/
theorem stop_media_actual_ordering (env : Env) (s : LocalMediaPlayer) (pid : Nat)
    (sock : String)
    (hproc : s.player_process = some pid) (hrun : env.os.isRunning pid = true)
    (hsock : s.ipc_socket = some sock) (hex : env.os.socketExists sock = true)
    (hthread : s.mpv_thread_alive = true) :
    (lmedStopMedia env s true false).2.2.1 =
      [StopEvent.termProc, StopEvent.waitProc, StopEvent.removeSocket,
       StopEvent.setCancelFlag, StopEvent.joinMonitor] := by
  unfold lmedStopMedia
  simp only [hproc]
  rw [pollOfIsRunning env.os pid hrun]
  have hex2 : ((env.os.terminate pid).wait pid).1.socketExists sock = true := by
    unfold OS.socketExists at hex ⊢
    rw [wait_fst_sockets, terminate_sockets]
    exact hex
  simp [hsock, hex2, hthread]

/-- C3 witness: the actual-ordering theorem applied at the concrete
running session. -/
theorem stop_media_actual_ordering_witness :
    (lmedStopMedia envPlay mediaPlaying true false).2.2.1 =
      [StopEvent.termProc, StopEvent.waitProc, StopEvent.removeSocket,
       StopEvent.setCancelFlag, StopEvent.joinMonitor] :=
  stop_media_actual_ordering envPlay mediaPlaying 0 "/tmp/mpv_socket_7" rfl (by decide)
    rfl (by decide) rfl

/-- C8 counterexample: with the cursor on the last track and metadata
populated, a "track finished" signal clears `current_media_info` to the
empty state instead of retaining the last metadata for display; and from
a pane sitting on the explorer view it performs no transition to the
"player" screen either (the self-join raises first). -/
theorem last_track_metadata_cleared_cex :
    mediaLast.current_media_info = some ⟨"b", "Videos/show/b.mp4"⟩ ∧
    mediaLast.current_media_index = some 1 ∧
    (lmedHandlePlaybackEnd envPlay mediaLast).2.1.current_media_info = none ∧
    (lmedHandlePlaybackEnd envPlay mediaLastExplorer).2.1.current_view = "explorer" ∧
    (lmedHandlePlaybackEnd envPlay mediaLastExplorer).2.2 = true :=
  ⟨rfl, rfl, rfl, rfl, rfl⟩

/-- C8 amended: a "track finished" signal at the last playlist index
runs `stop_media` first, which terminates and reaps the process and
clears the metadata (not retained), with the cursor unchanged at the last
index; the transition to the terminal "player" screen is then never
reached, because `stop_media` raises `RuntimeError` on the self-join of
the monitor thread, so the current view is left exactly as it was. -/
theorem last_track_finished_stop_effects (env : Env) (s : LocalMediaPlayer) (i pid : Nat)
    (hidx : s.current_media_index = some i)
    (hpl : s.playlist ≠ [])
    (hlast : i + 1 = s.playlist.length)
    (hproc : s.player_process = some pid)
    (hrun : env.os.isRunning pid = true)
    (hthread : s.mpv_thread_alive = true) :
    (lmedHandlePlaybackEnd env s).2.2 = true ∧
    (lmedHandlePlaybackEnd env s).2.1.current_media_index = some i ∧
    (lmedHandlePlaybackEnd env s).2.1.current_media_info = none ∧
    (lmedHandlePlaybackEnd env s).2.1.player_process = none ∧
    (lmedHandlePlaybackEnd env s).2.1.current_view = s.current_view := by
  have hsp := lmedStopMedia_monitor_spec env s pid hproc hrun hthread
  unfold lmedHandlePlaybackEnd
  rw [hsp]
  exact ⟨rfl, hidx, rfl, rfl, rfl⟩

/-- C8 witness: the stop-effects theorem applied at the concrete session
on its last track (cursor 1 of a two-track playlist). -/
theorem last_track_finished_stop_effects_witness :
    (lmedHandlePlaybackEnd envPlay mediaLast).2.2 = true ∧
    (lmedHandlePlaybackEnd envPlay mediaLast).2.1.current_media_index = some 1 ∧
    (lmedHandlePlaybackEnd envPlay mediaLast).2.1.current_media_info = none ∧
    (lmedHandlePlaybackEnd envPlay mediaLast).2.1.player_process = none ∧
    (lmedHandlePlaybackEnd envPlay mediaLast).2.1.current_view = mediaLast.current_view :=
  last_track_finished_stop_effects envPlay mediaLast 1 0 rfl (by decide) (by decide) rfl
    (by decide) rfl

/-- C7 counterexample: when the player exits with a nonzero code while
the pane sits on the explorer view, `check_playback_status` switches the
pane to the "player" view — it does not return to (or stay on) the
explorer screen as claimed. -/
theorem nonzero_exit_view_cex :
    mediaCrashed.current_view = "explorer" ∧
    (lmedCheckPlaybackStatus envExited mediaCrashed).2.current_view = "player" ∧
    (lmedCheckPlaybackStatus envExited mediaCrashed).2.current_view ≠ "explorer" :=
  ⟨rfl, rfl, by decide⟩

/-- C7 amended: on a nonzero player exit the session is torn down to an
idle-equivalent state — process reference cleared and reaped, start
timestamp cleared, pause flag lowered, monitor cancelled — and the pane
is put on the "player" view (not the explorer view). -/
theorem nonzero_exit_to_player_view (env : Env) (s : LocalMediaPlayer) (pid : Nat)
    (rc : Int)
    (hproc : s.player_process = some pid)
    (hfind : env.os.find pid = some ⟨ProcStatus.exited rc, false⟩)
    (hrc : rc ≠ 0) :
    (lmedCheckPlaybackStatus env s).2.current_view = "player" ∧
    (lmedCheckPlaybackStatus env s).2.player_process = none ∧
    (lmedCheckPlaybackStatus env s).2.playback_start_time = none ∧
    (lmedCheckPlaybackStatus env s).2.player_paused = false ∧
    (lmedCheckPlaybackStatus env s).2.monitoring_mpv = false ∧
    (lmedCheckPlaybackStatus env s).1.os.isReaped pid = true := by
  unfold lmedCheckPlaybackStatus
  simp only [hproc]
  unfold OS.poll
  simp only [hfind]
  have hb : (rc == 0) = false := by simpa using hrc
  simp [hb, OS.isReaped, find_setProc, hfind]

/-- C7 witness: the nonzero-exit theorem applied at the concrete crashed
session (exit code 1). -/
theorem nonzero_exit_to_player_view_witness :
    (lmedCheckPlaybackStatus envExited mediaCrashed).2.current_view = "player" ∧
    (lmedCheckPlaybackStatus envExited mediaCrashed).2.player_process = none ∧
    (lmedCheckPlaybackStatus envExited mediaCrashed).2.playback_start_time = none ∧
    (lmedCheckPlaybackStatus envExited mediaCrashed).2.player_paused = false ∧
    (lmedCheckPlaybackStatus envExited mediaCrashed).2.monitoring_mpv = false ∧
    (lmedCheckPlaybackStatus envExited mediaCrashed).1.os.isReaped 0 = true :=
  nonzero_exit_to_player_view envExited mediaCrashed 0 1 rfl rfl (by decide)

/-- C2 counterexample: after start(A) then start(B), the process of A is
no longer running (it was terminated) but has never been reaped — the
launch path calls `terminate()` without `wait()`, so the claim that A is
"terminated and reaped" is false. -/
theorem start_twice_reap_cex :
    (lmedStartTwice envBase mediaIdle entryA entryB).1.os.isRunning 0 = false ∧
    (lmedStartTwice envBase mediaIdle entryA entryB).1.os.isReaped 0 = false ∧
    (lmusStartTwice envBase musicDash entryA entryB).1.os.isRunning 0 = false ∧
    (lmusStartTwice envBase musicDash entryA entryB).1.os.isReaped 0 = false :=
  ⟨rfl, rfl, rfl, rfl⟩

/-- C2 amended: starting B while A is live terminates the still-running
process of A before spawning B, and afterwards exactly one process is
alive (the one of B, tracked by the session); but A has only been sent
SIGTERM and is never waited on by this path, so it remains unreaped.
This holds on both launch paths the claim cites: the video pane
(`play_media_file`) and the music pane (`play_music_file`). -/
theorem start_twice_terminates_unreaped (env envm : Env) (s : LocalMediaPlayer)
    (sm : LocalMusicPlayer) (a b : Entry)
    (hos : env.os = ⟨[], 0, []⟩) (hproc : s.player_process = none)
    (hosm : envm.os = ⟨[], 0, []⟩) (hprocm : sm.player_process = none) :
    ((lmedStartTwice env s a b).2.player_process = some 1 ∧
     (lmedStartTwice env s a b).1.os.find 0 = some ⟨ProcStatus.exited (-15), false⟩ ∧
     (lmedStartTwice env s a b).1.os.isRunning 1 = true ∧
     (lmedStartTwice env s a b).1.os.aliveCount = 1) ∧
    ((lmusStartTwice envm sm a b).2.player_process = some 1 ∧
     (lmusStartTwice envm sm a b).1.os.find 0 = some ⟨ProcStatus.exited (-15), false⟩ ∧
     (lmusStartTwice envm sm a b).1.os.isRunning 1 = true ∧
     (lmusStartTwice envm sm a b).1.os.aliveCount = 1) := by
  constructor
  · unfold lmedStartTwice lmedPlayMediaFile
    simp [hproc, hos, OS.spawnIpc, OS.spawn, OS.poll, OS.find, OS.setProc, OS.terminate,
          OS.isRunning, OS.aliveCount, List.find?]
  · unfold lmusStartTwice lmusPlayMusicFile
    simp [hprocm, hosm, OS.spawn, OS.poll, OS.find, OS.setProc, OS.terminate,
          OS.isRunning, OS.aliveCount, List.find?]

/-- C2 witness: the replace-now-playing theorem applied at concrete idle
video and music sessions, each started twice. -/
theorem start_twice_terminates_unreaped_witness :
    ((lmedStartTwice envBase mediaIdle entryA entryB).2.player_process = some 1 ∧
     (lmedStartTwice envBase mediaIdle entryA entryB).1.os.find 0 =
       some ⟨ProcStatus.exited (-15), false⟩ ∧
     (lmedStartTwice envBase mediaIdle entryA entryB).1.os.isRunning 1 = true ∧
     (lmedStartTwice envBase mediaIdle entryA entryB).1.os.aliveCount = 1) ∧
    ((lmusStartTwice envBase musicDash entryA entryB).2.player_process = some 1 ∧
     (lmusStartTwice envBase musicDash entryA entryB).1.os.find 0 =
       some ⟨ProcStatus.exited (-15), false⟩ ∧
     (lmusStartTwice envBase musicDash entryA entryB).1.os.isRunning 1 = true ∧
     (lmusStartTwice envBase musicDash entryA entryB).1.os.aliveCount = 1) :=
  start_twice_terminates_unreaped envBase envBase mediaIdle musicDash entryA entryB
    rfl rfl rfl rfl

/-- C6: pause followed by resume preserves elapsed-time accounting: the
elapsed time reported right after resume equals the elapsed time right
before pause (exactly, hence within one tick), regardless of the time
spent paused; at pause time elapsed = pause_ts - start_ts, and resume
shifts the start timestamp forward by exactly the paused duration. -/
theorem pause_resume_preserves_elapsed
    (envP envR env1 env2 : Env) (s s1 s2 : LocalMusicPlayer) (pid : Nat) (st : Int)
    (hproc : s.player_process = some pid)
    (hrun : envP.os.isRunning pid = true)
    (hpaused : s.player_paused = false)
    (hst : s.playback_start_time = some st)
    (hst0 : st ≠ 0)
    (hpnow : envP.now ≠ 0)
    (hp : lmusTogglePlayback envP s = some (env1, s1))
    (hrun2 : envR.os.isRunning pid = true)
    (hr : lmusTogglePlayback envR s1 = some (env2, s2))
    (hshift : st + (envR.now - envP.now) ≠ 0) :
    lmusRenderElapsed s envP.now = some (envP.now - st) ∧
    lmusRenderElapsed s1 envR.now = some (envP.now - st) ∧
    lmusRenderElapsed s2 envR.now = lmusRenderElapsed s envP.now ∧
    s2.playback_start_time = some (st + (envR.now - envP.now)) := by
  have hpeq : lmusTogglePlayback envP s
      = some (envP, { s with pause_time := some envP.now, player_paused := true }) := by
    unfold lmusTogglePlayback
    simp only [hproc]
    rw [pollOfIsRunning envP.os pid hrun]
    simp [hpaused]
  rw [hpeq] at hp
  simp only [Option.some.injEq, Prod.mk.injEq] at hp
  obtain ⟨henv1, hs1⟩ := hp
  subst hs1
  have hreq : lmusTogglePlayback envR
        { s with pause_time := some envP.now, player_paused := true }
      = some (envR, { s with pause_time := some envP.now,
                             playback_start_time := some (st + (envR.now - envP.now)),
                             player_paused := false }) := by
    unfold lmusTogglePlayback
    simp only [hproc]
    rw [pollOfIsRunning envR.os pid hrun2]
    simp [hst]
  rw [hreq] at hr
  simp only [Option.some.injEq, Prod.mk.injEq] at hr
  obtain ⟨henv2, hs2⟩ := hr
  subst hs2
  refine ⟨?_, ?_, ?_, ?_⟩
  · unfold lmusRenderElapsed
    simp [hpaused, hst, hst0]
  · unfold lmusRenderElapsed timeTruthy
    simp [hst, hpnow]
  · unfold lmusRenderElapsed
    simp [hpaused, hst, hst0, hshift]
    omega
  · rfl

/-- C6 witness: the pause/resume theorem applied at a track started at
tick 100, paused at tick 150 and resumed at tick 500: both elapsed
readings are 50 ticks and the start timestamp is shifted to 450. -/
theorem pause_resume_preserves_elapsed_witness :
    lmusRenderElapsed musW 150 = some (150 - 100) ∧
    lmusRenderElapsed musW1 500 = some (150 - 100) ∧
    lmusRenderElapsed musW2 500 = lmusRenderElapsed musW 150 ∧
    musW2.playback_start_time = some (100 + (500 - 150)) :=
  pause_resume_preserves_elapsed envMusP envMusR envMusP envMusR musW musW1 musW2 0 100
    rfl rfl rfl rfl (by decide) (by decide) rfl rfl rfl (by decide)

/-- The unconditional-Backspace tail of the global key handler: with the
pane dispatch already done, a Backspace-family key leaves Monocle exactly
when the (already updated) active module reports the "dashboard" view. -/
theorem rest_backspace_monocle (shm : SpotifyMouseHandler) (env : Env) (app : AppState)
    (m : Pane) (key : Int) (handled : Bool) (mev : MouseEvent) (res : Env × AppState × Bool)
    (hmon : app.monocle_mode = true)
    (hkey : isBackspaceKey key = true)
    (hres : appHandleKeypressRest shm env app m key handled mev = some res) :
    res.2.1.monocle_mode = (if m.currentView = "dashboard" then false else true) := by
  have hkey2 : (key = 263 ∨ key = 8) ∨ key = 127 := by
    simpa [isBackspaceKey, keyBackspaceCurses, keyCtrlH, keyDel] using hkey
  cases handled <;>
    rcases hkey2 with (h | h) | h <;> subst h <;>
      simp [appHandleKeypressRest, keyQ, keyEsc, keyM, keyT, keyJ, keyK, keyMouseEvt,
        isBackspaceKey, keyBackspaceCurses, keyCtrlH, keyDel, hmon] at hres <;>
      by_cases hv : m.currentView = "dashboard" <;>
        simp [hv, hmon] at hres ⊢ <;>
        simp [← hres, hmon]

/-- C4 counterexample: in Monocle with the active pane on its "player"
screen (not the root "Dashboard" and not the reserved "exit" value),
pressing `t` still returns the layout to Tiled — the input is not a
no-op, so leaving Monocle is not gated on the root screen for every
input. -/
theorem leave_monocle_t_key_cex :
    (appMonocleMediaPlayer.windows.get 1).map Pane.currentView = some "player" ∧
    (appHandleKeypress shkStub shmStub envBase appMonocleMediaPlayer keyT mevNone).map
      (fun r => r.2.1.monocle_mode) = some false :=
  ⟨rfl, rfl⟩

/-- C4 amended: only the Backspace path of leaving Monocle is gated: for
every pane handler, a Backspace-family key keeps Monocle whenever the
active pane (after handling the key itself) is on a screen other than
"Dashboard" and other than the reserved "exit" value, and leaves Monocle
when the pane is on "Dashboard"; the `t` key, by contrast, returns to
Tiled unconditionally (the counterexample). -/
theorem monocle_backspace_dashboard_gate (shk : SpotifyKeyHandler)
    (shm : SpotifyMouseHandler) (env env1 : Env) (app : AppState) (m0 m1 : Pane)
    (key : Int) (handled : Bool) (mev : MouseEvent) (res : Env × AppState × Bool)
    (hmon : app.monocle_mode = true)
    (hkey : isBackspaceKey key = true)
    (hm0 : app.windows.get app.active_window = some m0)
    (hph : Pane.handleKeypress shk env m0 key = some (env1, m1, handled))
    (hres : appHandleKeypress shk shm env app key mev = some res) :
    (m1.currentView ≠ "dashboard" → m1.currentView ≠ "exit" →
      res.2.1.monocle_mode = true) ∧
    (m1.currentView = "dashboard" → res.2.1.monocle_mode = false) := by
  simp only [appHandleKeypress, hm0, hmon, if_true, hph] at hres
  by_cases hexit : m1.currentView = "exit"
  · refine ⟨fun _ hne => absurd hexit hne, fun hd => ?_⟩
    exact absurd (hd.symm.trans hexit) (by decide)
  · have hb : (m1.currentView == "exit") = false := by simpa using hexit
    simp only [hb, Bool.false_eq_true, if_false] at hres
    have hrest := rest_backspace_monocle shm env1
      { app with monocle_mode := true, windows := app.windows.set app.active_window m1 }
      m1 key handled mev res rfl hkey hres
    constructor
    · intro hnd _
      rw [hrest, if_neg hnd]
    · intro hd
      rw [hrest, if_pos hd]

/-- C4 witness: the Backspace gate applied at a session whose video pane
sits in a subdirectory of the explorer; Backspace walks up one directory,
the pane stays on "explorer", and Monocle is kept. -/
theorem monocle_backspace_dashboard_gate_witness :
    resC4W.2.1.monocle_mode = true :=
  (monocle_backspace_dashboard_gate shkStub shmStub envBase envBase appC4W
      (Pane.media mediaSubdir) (Pane.media mediaSubdirUp) 263 true mevNone resC4W
      rfl rfl rfl rfl rfl).1
    (by decide) (by decide)

theorem pane_reset_selectedIndex (p : Pane) (v : String) :
    (((p.setCurrentView v).setSelectedIndex 0).clearSpotifyPlaylist).selectedIndex = 0 := by
  cases p <;> rfl

theorem pane_reset_currentView (p : Pane) (v : String) :
    (((p.setCurrentView v).setSelectedIndex 0).clearSpotifyPlaylist).currentView = v := by
  cases p <;> rfl

/-- C5 counterexample: in Monocle with the active pane on its root
"Dashboard", pressing `j` (from the music pane) or `k` (from the video
pane) activates the neighboring pane but leaves that pane with its old
selection cursor 3 and its old "player" screen — nothing is reset,
contradicting the claim that a `j`/`k` switch resets the newly active
pane. -/
theorem monocle_jk_switch_no_reset_cex :
    ((appHandleKeypress shkStub shmStub envBase appMonocleMusicDash keyJ mevNone).map
      (fun r => (r.2.1.active_window,
        (r.2.1.windows.get 1).map Pane.selectedIndex,
        (r.2.1.windows.get 1).map Pane.currentView))
      = some (1, some 3, some "player")) ∧
    ((appHandleKeypress shkStub shmStub envBase appMonocleMediaDash keyK mevNone).map
      (fun r => (r.2.1.active_window,
        (r.2.1.windows.get 0).map Pane.selectedIndex,
        (r.2.1.windows.get 0).map Pane.currentView))
      = some (0, some 3, some "player")) :=
  ⟨rfl, rfl⟩

/-- C5 amended: a pointer click on a quadrant in Tiled layout activates
that pane, enters Monocle, and resets the pane (selection cursor 0,
screen forced to its entry view, Spotify playlist cache cleared); but a
`j` or `k` switch in Monocle from the root "Dashboard" only moves the
active index (forward for `j`, backward for `k`) and leaves the newly
active pane completely untouched. -/
theorem pane_switch_click_resets_jk_not :
    (∀ (shm : SpotifyMouseHandler) (env : Env) (app : AppState) (ev : MouseEvent)
        (env2 : Env) (app2 : AppState),
      app.monocle_mode = false → ev.button = button1Clicked →
      appHandleMouse shm env app ev = some (env2, app2) →
      app2.monocle_mode = true ∧
      ∃ p, app.windows.get app2.active_window = some p ∧
        app2.windows.get app2.active_window =
          some (((p.setCurrentView
            (if p.isRadio then "radio" else "explorer")).setSelectedIndex
              0).clearSpotifyPlaylist) ∧
        (app2.windows.get app2.active_window).map Pane.selectedIndex = some 0 ∧
        (app2.windows.get app2.active_window).map Pane.currentView =
          some (if p.isRadio then "radio" else "explorer")) ∧
    (∀ (shk : SpotifyKeyHandler) (shm : SpotifyMouseHandler) (env : Env) (app : AppState)
        (m0 : Pane) (mev : MouseEvent) (res : Env × AppState × Bool),
      app.monocle_mode = true →
      app.windows.get app.active_window = some m0 →
      m0.currentView = "dashboard" →
      Pane.handleKeypress shk env m0 keyJ = some (env, m0, false) →
      app.active_window < 3 →
      appHandleKeypress shk shm env app keyJ mev = some res →
      res.2.1.active_window = app.active_window + 1 ∧
      res.2.1.windows.get (app.active_window + 1) =
        app.windows.get (app.active_window + 1)) ∧
    (∀ (shk : SpotifyKeyHandler) (shm : SpotifyMouseHandler) (env : Env) (app : AppState)
        (m0 : Pane) (mev : MouseEvent) (res : Env × AppState × Bool),
      app.monocle_mode = true →
      app.windows.get app.active_window = some m0 →
      m0.currentView = "dashboard" →
      Pane.handleKeypress shk env m0 keyK = some (env, m0, false) →
      0 < app.active_window →
      appHandleKeypress shk shm env app keyK mev = some res →
      res.2.1.active_window = app.active_window - 1 ∧
      res.2.1.windows.get (app.active_window - 1) =
        app.windows.get (app.active_window - 1)) := by
  refine ⟨?_, ?_, ?_⟩
  · intro shm env app ev env2 app2 hmon hbtn hres
    have hb : (ev.button == button1Clicked) = true := by simp [hbtn]
    simp only [appHandleMouse, hmon, Bool.false_eq_true, if_false, appMouseQuadrant, hb,
      if_true] at hres
    by_cases hc1 : ev.y < env.scrH / 2 ∧ ev.x < env.scrW / 2
    · simp only [hc1, and_self, if_true, if_false, Windows.get] at hres
      rw [Option.some.injEq, Prod.mk.injEq] at hres
      obtain ⟨he, ha⟩ := hres
      subst ha
      exact ⟨rfl, app.windows.w0, rfl, rfl,
        congrArg some (pane_reset_selectedIndex _ _),
        congrArg some (pane_reset_currentView _ _)⟩
    · by_cases hc2 : ev.y < env.scrH / 2 ∧ env.scrW / 2 ≤ ev.x
      · obtain ⟨hy, hx⟩ := hc2
        have hxn : ¬(ev.x < env.scrW / 2) := by omega
        simp only [hy, hx, hxn, and_self, and_true, true_and, and_false, false_and,
          if_true, if_false, Windows.get] at hres
        rw [Option.some.injEq, Prod.mk.injEq] at hres
        obtain ⟨he, ha⟩ := hres
        subst ha
        exact ⟨rfl, app.windows.w1, rfl, rfl,
          congrArg some (pane_reset_selectedIndex _ _),
          congrArg some (pane_reset_currentView _ _)⟩
      · by_cases hc3 : env.scrH / 2 ≤ ev.y ∧ ev.x < env.scrW / 2
        · obtain ⟨hyge, hx⟩ := hc3
          have hyn : ¬(ev.y < env.scrH / 2) := by omega
          simp only [hyge, hx, hyn, and_self, and_true, true_and, and_false, false_and,
            if_true, if_false, Windows.get] at hres
          rw [Option.some.injEq, Prod.mk.injEq] at hres
          obtain ⟨he, ha⟩ := hres
          subst ha
          exact ⟨rfl, app.windows.w2, rfl, rfl, congrArg some (pane_reset_selectedIndex _ _),
            congrArg some (pane_reset_currentView _ _)⟩
        · have hyn : ¬(ev.y < env.scrH / 2) := by omega
          have hxn : ¬(ev.x < env.scrW / 2) := by omega
          have hxge : env.scrW / 2 ≤ ev.x := by omega
          have hyge : env.scrH / 2 ≤ ev.y := by omega
          simp only [hyn, hxn, hxge, hyge, and_self, and_true, true_and, and_false,
            false_and, if_true, if_false, Windows.get] at hres
          rw [Option.some.injEq, Prod.mk.injEq] at hres
          obtain ⟨he, ha⟩ := hres
          subst ha
          exact ⟨rfl, app.windows.w3, rfl, rfl, congrArg some (pane_reset_selectedIndex _ _),
            congrArg some (pane_reset_currentView _ _)⟩
  · intro shk shm env app m0 mev res hmon hm0 hview hph hlt hres
    simp only [appHandleKeypress, hm0, hmon, if_true, hph] at hres
    have hb : (m0.currentView == "exit") = false := by simp [hview]
    simp only [hb, Bool.false_eq_true, if_false] at hres
    have hlt2 : app.active_window < 4 - 1 := by omega
    simp [appHandleKeypressRest, keyJ, keyQ, keyEsc, keyM, keyT, keyK, keyMouseEvt,
      isBackspaceKey, keyBackspaceCurses, keyCtrlH, keyDel, hview, hmon, hlt2] at hres
    rw [← hres]
    refine ⟨rfl, ?_⟩
    have hn : app.active_window = 0 ∨ app.active_window = 1 ∨ app.active_window = 2 := by
      omega
    rcases hn with h | h | h <;> rw [h] <;> rfl
  · intro shk shm env app m0 mev res hmon hm0 hview hph hpos hres
    have h4 : app.active_window < 4 := by
      by_contra hge
      obtain ⟨k, hk⟩ : ∃ k, app.active_window = k + 4 := ⟨app.active_window - 4, by omega⟩
      rw [hk] at hm0
      exact Option.noConfusion hm0
    simp only [appHandleKeypress, hm0, hmon, if_true, hph] at hres
    have hb : (m0.currentView == "exit") = false := by simp [hview]
    simp only [hb, Bool.false_eq_true, if_false] at hres
    simp [appHandleKeypressRest, keyK, keyQ, keyEsc, keyM, keyT, keyJ, keyMouseEvt,
      isBackspaceKey, keyBackspaceCurses, keyCtrlH, keyDel, hview, hmon, hpos] at hres
    rw [← hres]
    refine ⟨rfl, ?_⟩
    have hn : app.active_window = 1 ∨ app.active_window = 2 ∨ app.active_window = 3 := by
      omega
    rcases hn with h | h | h <;> rw [h] <;> rfl

/-- C5 witness: the switch behaviors at concrete inputs — a click on the
upper-left quadrant resets the music pane to view "explorer" and cursor 0
while entering Monocle; a `j` switch from the music dashboard activates
the video pane with its cursor and view untouched, and a `k` switch from
the video dashboard activates the music pane equally untouched. -/
theorem pane_switch_click_resets_jk_not_witness :
    (appC5a.monocle_mode = true ∧
      ∃ p, appTiled.windows.get appC5a.active_window = some p ∧
        appC5a.windows.get appC5a.active_window =
          some (((p.setCurrentView
            (if p.isRadio then "radio" else "explorer")).setSelectedIndex
              0).clearSpotifyPlaylist) ∧
        (appC5a.windows.get appC5a.active_window).map Pane.selectedIndex = some 0 ∧
        (appC5a.windows.get appC5a.active_window).map Pane.currentView =
          some (if p.isRadio then "radio" else "explorer")) ∧
    (resC5b.2.1.active_window = appMonocleMusicDash.active_window + 1 ∧
      resC5b.2.1.windows.get (appMonocleMusicDash.active_window + 1) =
        appMonocleMusicDash.windows.get (appMonocleMusicDash.active_window + 1)) ∧
    (resC5c.2.1.active_window = appMonocleMediaDash.active_window - 1 ∧
      resC5c.2.1.windows.get (appMonocleMediaDash.active_window - 1) =
        appMonocleMediaDash.windows.get (appMonocleMediaDash.active_window - 1)) :=
  ⟨pane_switch_click_resets_jk_not.1 shmStub envBase appTiled evClick envBase appC5a
      rfl rfl rfl,
   pane_switch_click_resets_jk_not.2.1 shkStub shmStub envBase appMonocleMusicDash
      (Pane.music musicDash) mevNone resC5b rfl rfl rfl rfl (by decide) rfl,
   pane_switch_click_resets_jk_not.2.2 shkStub shmStub envBase appMonocleMediaDash
      (Pane.media mediaDash) mevNone resC5c rfl rfl rfl rfl (by decide) rfl⟩

/-- C9 witness: the idempotent-add theorem applied at a stations view
whose selected station is already the sole favorite. -/
theorem favorites_add_idempotent_witness :
    radioHandleStationsKeypress envBase radioStationsDup keyLowF =
      some (envBase, radioStationsDup, true) ∧
    radioHandleStationsKeypress envBase radioStationsDup keyBigF =
      some (envBase, radioStationsDup, true) :=
  favorites_add_idempotent envBase radioStationsDup stationA rfl (by decide)

end MediaTui
